import Mathlib

/-!
Verification of the ghostunnel core (`src/main.go`) against its
natural-language specification, via a shallow embedding in Lean 4.

The embedding covers:
* the startup sequence of `main` as a trace of events (flag parsing,
  logger setup, raw bind, TLS-config construction, goroutine launches,
  parent signalling, final wait);
* the TLS client-certificate policy (`buildConfig`'s verification
  callback, modelled from the spec where the body is not in `src/`);
* the shutdown/drain behaviour as a labelled transition system over a
  process state (join counter, listener, accept loop, live connections);
* the port-reuse bind semantics (`SO_REUSEPORT`);
* the logger prefix (`initLogger`).
-/

namespace Ghostunnel

/-- Parsed startup configuration together with the environment facts that
decide each fallible startup step of `main` (`src/main.go` lines 54-97).
`useSyslog` and `gracefulChild` are the flags of the same names;
`syslogOk`, `bindOk`, `keyOk`, `certOk`, `caOk` record whether the
corresponding external operation (syslog connect, socket bind, key file
load, cert chain load, CA bundle load) succeeds. -/
structure Config where
  useSyslog : Bool
  syslogOk : Bool
  bindOk : Bool
  keyOk : Bool
  certOk : Bool
  caOk : Bool
  gracefulChild : Bool
  deriving DecidableEq, Repr

/-- TLS key material loads successfully: key, certificate chain and CA
bundle are all readable and well-formed (spec section 4.2 steps 1-2). -/
def Config.tlsMaterialOk (cfg : Config) : Bool :=
  cfg.keyOk && cfg.certOk && cfg.caOk

/-- Observable events of `main`'s startup sequence, in the order the
statements appear in `src/main.go`. `fatalExit` stands for a panic
(process aborts with a non-zero exit code); `waitReturn` is
`wg.Wait()` returning at line 94. -/
inductive Event where
  | parseFlags
  | initLog
  | bindRaw
  | buildCfg
  | wrapTLS
  | logListening
  | launchAccept
  | launchSigterm
  | launchSigusr1
  | killParent (ppid : Nat)
  | logStartup
  | waitReturn
  | logShutdown
  | fatalExit
  deriving DecidableEq, Repr

/-- The event trace of `main` (`src/main.go` lines 54-97) for a given
configuration/environment and parent pid.  Statement order follows the
source: `kingpin.Parse` (line 56), `initLogger` (line 57, may panic via
`panicOnError` when syslog setup fails), `NewReusablePortListener` +
`panicOnError` (lines 66-67), `buildConfig()` inside `tls.NewListener`
(line 70; aborts on bad key material per spec sections 4.2 and 7),
the three `go` launches (lines 80-82), the graceful-child SIGTERM to the
parent (lines 86-90), and the final `wg.Wait()` (line 94). -/
def mainTrace (cfg : Config) (ppid : Nat) : List Event :=
  Event.parseFlags ::
    if cfg.useSyslog && !cfg.syslogOk then [Event.fatalExit]
    else Event.initLog ::
      if !cfg.bindOk then [Event.fatalExit]
      else Event.bindRaw ::
        if !cfg.tlsMaterialOk then [Event.fatalExit]
        else Event.buildCfg :: Event.wrapTLS :: Event.logListening ::
          Event.launchAccept :: Event.launchSigterm :: Event.launchSigusr1 ::
          ((if cfg.gracefulChild then [Event.killParent ppid] else []) ++
            [Event.logStartup, Event.waitReturn, Event.logShutdown])

/-- Startup succeeds: every fallible startup step succeeds, so `main`
reaches the serving state instead of panicking. -/
def Config.startupOk (cfg : Config) : Bool :=
  (!cfg.useSyslog || cfg.syslogOk) && cfg.bindOk && cfg.tlsMaterialOk

/-- Process exit code: a Go panic terminates the process with exit code 2,
a normal return from `main` exits 0. -/
def exitCode (cfg : Config) (ppid : Nat) : Nat :=
  if Event.fatalExit ∈ mainTrace cfg ppid then 2 else 0

/-- `occursBefore a b tr` holds when some occurrence of `a` in `tr` is
strictly earlier than some occurrence of `b`. -/
def occursBefore (a b : Event) : List Event → Prop
  | [] => False
  | e :: rest => (e = a ∧ b ∈ rest) ∨ occursBefore a b rest

/-! ### TLS client-certificate policy (spec section 4.2, `buildConfig`) -/

/-- An X.509 certificate, reduced to the only field the authorization
policy reads: the organizational-unit values of its subject. -/
structure Cert where
  ous : List String
  deriving DecidableEq, Repr

/-- Client-certificate requirement modes of a server TLS configuration
(mirrors Go's `tls.ClientAuthType` values used here). -/
inductive ClientAuthType where
  | noClientCert
  | requireAndVerifyClientCert
  deriving DecidableEq, Repr

/-- Server-side TLS configuration: the client-auth mode and the
allow-list of accepted organizational units the verification callback
closes over. -/
structure TLSConfig where
  clientAuth : ClientAuthType
  acceptedOUs : List String
  deriving DecidableEq, Repr

/-- At least one certificate in the presented chain carries an
organizational-unit value present in the accepted set. -/
def chainHasAcceptedOU (chain : List Cert) (accepted : List String) : Bool :=
  chain.any fun c => c.ous.any fun ou => accepted.contains ou

/-- Modelled from the spec: the body of `buildConfig` is not in `src/`
(only its call site at `src/main.go` line 70). Spec section 4.2 step 3:
construct a server-side TLS configuration that requires a client
certificate and verifies it chains to the trust pool, with a
post-verification check over the accepted organizational-unit set. -/
def buildConfig (accepted : List String) : TLSConfig :=
  { clientAuth := ClientAuthType.requireAndVerifyClientCert
    acceptedOUs := accepted }

/-- Modelled from the spec: outcome of one TLS handshake against a server
configuration. `chainVerified` records whether the presented chain
verifies against the trust pool; after chain verification the callback
accepts iff some certificate in the chain carries an accepted
organizational unit (spec section 4.2 step 3). -/
def handshakePasses (cfg : TLSConfig) (chainVerified : Bool) (chain : List Cert) : Bool :=
  match cfg.clientAuth with
  | ClientAuthType.noClientCert => true
  | ClientAuthType.requireAndVerifyClientCert =>
      chainVerified && chainHasAcceptedOU chain cfg.acceptedOUs

/-- Per-connection pipeline stages (spec section 4.5). -/
inductive ConnOutcome where
  | rejectedHandshake
  | backendFailed
  | relayed
  deriving DecidableEq, Repr

/-- Modelled from the spec: the per-connection pipeline of the relay
engine (spec section 4.5): handshake first; on failure close without
relaying; otherwise dial the backend and relay. -/
def connectionOutcome (cfg : TLSConfig) (chainVerified : Bool) (chain : List Cert)
    (backendUp : Bool) : ConnOutcome :=
  if handshakePasses cfg chainVerified chain then
    if backendUp then ConnOutcome.relayed else ConnOutcome.backendFailed
  else ConnOutcome.rejectedHandshake

/-! ### Shutdown/drain transition system (spec sections 4.4, 5)

`main` creates a `WaitGroup` with one unit (`src/main.go` lines 73-74),
launches `accept` and `sigtermHandler` (lines 80-81) and blocks in
`wg.Wait()` (line 94).  The bodies of `accept` and `sigtermHandler` are
not in `src/`; their effect on the shared state is modelled from the
spec: the accept loop increments the counter per accepted connection, a
connection decrements it when its relay finishes, the termination signal
closes the listener (idempotently), the accept loop exits once the
listener is closed (or on a fatal accept error) and releases its own
unit, and `main` returns only when the counter is zero. -/

/-- Shared process state during the serving phase. -/
structure PState where
  listenerOpen : Bool
  closeCount : Nat
  wgCount : Nat
  conns : Nat
  acceptLoopDone : Bool
  mainDone : Bool
  deriving DecidableEq, Repr

/-- State upon entering the serving phase: listener open, the join
counter holds exactly the one unit added at `src/main.go` line 74 on
behalf of the accept loop, no connections, `main` blocked in
`wg.Wait()`. -/
def initState : PState :=
  { listenerOpen := true
    closeCount := 0
    wgCount := 1
    conns := 0
    acceptLoopDone := false
    mainDone := false }

/-- Modelled from the spec: effect of one termination signal
(`sigtermHandler`, body not in `src/`). While the listener is open it is
closed exactly once and acceptance stops; a signal arriving while
already draining is a no-op (spec section 4.4). -/
def sigtermStep (s : PState) : PState :=
  if s.listenerOpen then
    { s with listenerOpen := false, closeCount := s.closeCount + 1 }
  else s

/-- Transition labels of the serving-phase system. -/
inductive Label where
  | accept
  | finishConn
  | sigterm
  | acceptExit
  | mainExit
  deriving DecidableEq, Repr

/-- Modelled from the spec: the labelled transition relation of the
serving phase. `accept` requires an open listener and a live accept
loop; `finishConn` completes one connection's relay (enabled in every
state with a live connection, in any order); `sigterm` applies
`sigtermStep`; `acceptExit` ends the accept loop (shutdown-triggered
closure or a fatal accept error) and releases its join-counter unit;
`mainExit` is `wg.Wait()` returning, enabled only at counter zero. -/
inductive Step : Label → PState → PState → Prop where
  | accept (s : PState) (hOpen : s.listenerOpen = true)
      (hLoop : s.acceptLoopDone = false) :
      Step Label.accept s
        { s with conns := s.conns + 1, wgCount := s.wgCount + 1 }
  | finishConn (s : PState) (hConn : 0 < s.conns) :
      Step Label.finishConn s
        { s with conns := s.conns - 1, wgCount := s.wgCount - 1 }
  | sigterm (s : PState) :
      Step Label.sigterm s (sigtermStep s)
  | acceptExit (s : PState) (hLoop : s.acceptLoopDone = false) :
      Step Label.acceptExit s
        { s with acceptLoopDone := true, wgCount := s.wgCount - 1 }
  | mainExit (s : PState) (hZero : s.wgCount = 0) (hMain : s.mainDone = false) :
      Step Label.mainExit s { s with mainDone := true }

/-- States reachable from `initState` by any interleaving of steps. -/
inductive Reachable : PState → Prop where
  | init : Reachable initState
  | step {s s' : PState} {l : Label} (hr : Reachable s) (hs : Step l s s') :
      Reachable s'

/-- The join-counter invariant of the serving phase: the counter holds
one unit per live connection plus one unit for the accept loop while it
runs, and once `main` has returned the counter is zero. -/
def Inv (s : PState) : Prop :=
  s.wgCount = s.conns + (if s.acceptLoopDone then 0 else 1) ∧
  (s.mainDone = true → s.wgCount = 0)

/-- The listener-close invariant: the listener is closed at most once,
and not at all while it is still open. -/
def CloseInv (s : PState) : Prop :=
  (s.listenerOpen = true → s.closeCount = 0) ∧ s.closeCount ≤ 1

/-- The state after a complete clean shutdown with no connections:
signal received (listener closed once), accept loop exited, counter
drained, `main` returned. -/
def drainedState : PState :=
  { listenerOpen := false
    closeCount := 1
    wgCount := 0
    conns := 0
    acceptLoopDone := true
    mainDone := true }

/-! ### Port-reuse bind semantics (spec section 4.3) -/

/-- A socket bind request: the address (host:port) and whether the
kernel port-reuse option (`SO_REUSEPORT`) is set on the socket. -/
structure BindRequest where
  addr : String
  reusePort : Bool
  deriving DecidableEq, Repr

/-- The listener `main` opens (`src/main.go` line 66):
`reuseport.NewReusablePortListener` sets `SO_REUSEPORT` on the socket
(comment at lines 59-64). -/
def newReusablePortListener (addr : String) : BindRequest :=
  { addr := addr, reusePort := true }

/-- Modelled from the spec: kernel bind admission (spec section 4.3).
A bind succeeds when no current bind holds the same address, or when the
new socket sets port reuse and every current holder of that address set
it too. -/
def bindAllowed (bound : List BindRequest) (req : BindRequest) : Bool :=
  bound.all (fun b => b.addr != req.addr) ||
    (req.reusePort && bound.all fun b => b.addr != req.addr || b.reusePort)

/-- The sets of bound listeners through a graceful reload of address
`addr`: parent alone, parent and child overlapping, child alone. -/
def reloadWindow (addr : String) : List (List BindRequest) :=
  [[newReusablePortListener addr],
   [newReusablePortListener addr, newReusablePortListener addr],
   [newReusablePortListener addr]]

/-! ### Logger prefix (`initLogger`, `src/main.go` lines 34-45) -/

/-- Right-align a string in a field of width `w` by padding with spaces
on the left (no truncation), as Go's `%5d` verb does for width 5. -/
def padLeft (s : String) (w : Nat) : String :=
  String.mk (List.replicate (w - s.length) ' ') ++ s

/-- The string `fmt.Sprintf("[%5d] ", pid)` of `src/main.go` line 44. -/
def logPfx (pid : Nat) : String :=
  "[" ++ padLeft (Nat.repr pid) 5 ++ "] "

/-- Destination of the process logger. -/
inductive LogDest where
  | stderr
  | sysLog
  deriving DecidableEq, Repr

/-- The global logger: destination plus the prefix string prepended to
every line it emits. -/
structure Logger where
  dest : LogDest
  pfx : String
  deriving DecidableEq, Repr

/-- `initLogger` (`src/main.go` lines 34-45): build the logger for the
chosen destination (syslog setup may fail, which panics via
`panicOnError`), then set its prefix to the bracketed process id. -/
def initLogger (useSyslog : Bool) (syslogOk : Bool) (pid : Nat) : Option Logger :=
  (if useSyslog then
    if syslogOk then some { dest := LogDest.sysLog, pfx := "" } else none
  else some { dest := LogDest.stderr, pfx := "" } : Option Logger).map
    fun l => { l with pfx := logPfx pid }

/-- A line emitted through the logger: the prefix precedes the message
on every line, for either destination. -/
def emitLine (l : Logger) (msg : String) : String :=
  l.pfx ++ msg

/-! ## Theorems -/

/-- The join-counter invariant holds initially. -/
theorem inv_init : Inv initState := by
  constructor <;> simp [Inv, initState]

/-- Every step of the serving phase preserves the join-counter
invariant. -/
theorem inv_step {l : Label} {s s' : PState} (hi : Inv s) (hs : Step l s s') :
    Inv s' := by
  obtain ⟨hw, hm⟩ := hi
  cases hs with
  | accept s hOpen hLoop =>
      have hw' : s.wgCount = s.conns + 1 := by simpa [hLoop] using hw
      refine ⟨?_, fun hd => ?_⟩
      · show s.wgCount + 1 = s.conns + 1 + (if s.acceptLoopDone then 0 else 1)
        rw [hLoop]
        simp
        omega
      · have h0 : s.wgCount = 0 := hm hd
        show s.wgCount + 1 = 0
        omega
  | finishConn s hConn =>
      cases hA : s.acceptLoopDone with
      | false =>
          have hw' : s.wgCount = s.conns + 1 := by simpa [hA] using hw
          refine ⟨?_, fun hd => ?_⟩
          · show s.wgCount - 1 = s.conns - 1 + 1
            omega
          · have h0 : s.wgCount = 0 := hm hd
            show s.wgCount - 1 = 0
            omega
      | true =>
          have hw' : s.wgCount = s.conns := by simpa [hA] using hw
          refine ⟨?_, fun hd => ?_⟩
          · show s.wgCount - 1 = s.conns - 1 + 0
            omega
          · have h0 : s.wgCount = 0 := hm hd
            show s.wgCount - 1 = 0
            omega
  | sigterm s =>
      unfold sigtermStep
      split <;> exact ⟨hw, hm⟩
  | acceptExit s hLoop =>
      have hw' : s.wgCount = s.conns + 1 := by simpa [hLoop] using hw
      refine ⟨?_, fun hd => ?_⟩
      · show s.wgCount - 1 = s.conns + (if true then 0 else 1)
        simp
        omega
      · have h0 : s.wgCount = 0 := hm hd
        show s.wgCount - 1 = 0
        omega
  | mainExit s hZero hMain =>
      exact ⟨hw, fun _ => hZero⟩

/-- The join-counter invariant holds in every reachable state. -/
theorem reachable_inv {s : PState} (h : Reachable s) : Inv s := by
  induction h with
  | init => exact inv_init
  | step _ hs ih => exact inv_step ih hs

/-- Every step of the serving phase preserves the listener-close
invariant. -/
theorem closeInv_step {l : Label} {s s' : PState} (hc : CloseInv s)
    (hs : Step l s s') : CloseInv s' := by
  obtain ⟨ho, hle⟩ := hc
  cases hs with
  | accept s hOpen hLoop => exact ⟨ho, hle⟩
  | finishConn s hConn => exact ⟨ho, hle⟩
  | sigterm s =>
      by_cases h1 : s.listenerOpen = true
      · simp only [sigtermStep, if_pos h1]
        exact ⟨fun h2 => absurd h2 (by simp), by simp [ho h1]⟩
      · simp only [sigtermStep, if_neg h1]
        exact ⟨ho, hle⟩
  | acceptExit s hLoop => exact ⟨ho, hle⟩
  | mainExit s hZero hMain => exact ⟨ho, hle⟩

/-- The listener-close invariant holds in every reachable state. -/
theorem reachable_closeInv {s : PState} (h : Reachable s) : CloseInv s := by
  induction h with
  | init => exact ⟨fun _ => rfl, Nat.zero_le 1⟩
  | step _ hs ih => exact closeInv_step ih hs

/-- The drained state is reachable: a termination signal with zero
active connections, accept-loop exit, then `wg.Wait` returning. -/
theorem drained_reachable : Reachable drainedState := by
  have h1 : Reachable (sigtermStep initState) :=
    Reachable.step Reachable.init (Step.sigterm initState)
  have h2 : Reachable
      { listenerOpen := false, closeCount := 1, wgCount := 0, conns := 0,
        acceptLoopDone := true, mainDone := false } :=
    Reachable.step h1 (Step.acceptExit (sigtermStep initState) rfl)
  exact Reachable.step h2 (Step.mainExit _ rfl rfl)

/-- Claim C4: in every reachable state of the serving phase — i.e. under
every interleaving of connection completions, signals and loop exit —
the process has not returned from `main` while the live-connection count
is above zero: `wg.Wait()` returns only once the join counter has
drained to zero. -/
theorem c4_drain_correctness :
    (∀ s s' : PState, Step Label.mainExit s s' → s.wgCount = 0) ∧
    ∀ s : PState, Reachable s → s.mainDone = true →
      s.conns = 0 ∧ s.wgCount = 0 := by
  constructor
  · intro s s' h
    cases h with
    | mainExit s hZero hMain => exact hZero
  · intro s hr hd
    obtain ⟨hw, hm⟩ := reachable_inv hr
    have h0 := hm hd
    cases hb : s.acceptLoopDone <;> simp [hb] at hw <;> omega

/-- Witness for C4 at the concrete drained state. -/
theorem c4_witness : drainedState.conns = 0 ∧ drainedState.wgCount = 0 :=
  c4_drain_correctness.2 drainedState drained_reachable rfl

/-- Claim C9: the join counter starts with one unit held for the accept
loop (`wg.Add(1)` at `src/main.go` line 74, before `go accept` at line
80), so `main`'s return implies the accept loop has terminated — even
when no client connection was ever active. -/
theorem c9_accept_loop_unit :
    initState.wgCount = 1 ∧
    ∀ s : PState, Reachable s → s.mainDone = true → s.acceptLoopDone = true := by
  refine ⟨rfl, fun s hr hd => ?_⟩
  obtain ⟨hw, hm⟩ := reachable_inv hr
  have h0 := hm hd
  cases hb : s.acceptLoopDone with
  | false =>
      simp [hb] at hw
      omega
  | true => rfl

/-- Witness for C9 at the concrete drained state. -/
theorem c9_witness : drainedState.acceptLoopDone = true :=
  c9_accept_loop_unit.2 drainedState drained_reachable rfl

/-- Claim C5: a termination signal is always receivable (no crash), its
effect is idempotent, a signal received while the listener is already
closed (`DRAINING`) is a no-op, it never touches the connection counter
or the join counter, and in every reachable state the listener has been
closed at most once. -/
theorem c5_sigterm_idempotent :
    (∀ s : PState, Step Label.sigterm s (sigtermStep s)) ∧
    (∀ s : PState, sigtermStep (sigtermStep s) = sigtermStep s) ∧
    (∀ s : PState, s.listenerOpen = false → sigtermStep s = s) ∧
    (∀ s : PState, (sigtermStep s).conns = s.conns ∧
      (sigtermStep s).wgCount = s.wgCount) ∧
    (∀ s : PState, Reachable s → s.closeCount ≤ 1) := by
  refine ⟨fun s => Step.sigterm s, ?_, ?_, ?_, fun s hr => (reachable_closeInv hr).2⟩
  · intro s
    by_cases h1 : s.listenerOpen = true <;> simp [sigtermStep, h1]
  · intro s h1
    simp [sigtermStep, h1]
  · intro s
    by_cases h1 : s.listenerOpen = true <;> simp [sigtermStep, h1]

/-- Witness for C5: a second signal in a concrete draining state is a
no-op, and the drained state closed the listener exactly once. -/
theorem c5_witness :
    sigtermStep
        { listenerOpen := false, closeCount := 1, wgCount := 3, conns := 2,
          acceptLoopDone := false, mainDone := false } =
      { listenerOpen := false, closeCount := 1, wgCount := 3, conns := 2,
        acceptLoopDone := false, mainDone := false } ∧
    drainedState.closeCount ≤ 1 :=
  ⟨c5_sigterm_idempotent.2.2.1 _ rfl,
   c5_sigterm_idempotent.2.2.2.2 drainedState drained_reachable⟩

/-- Claim C7: an accept step requires an open listener; once the
listener is closed it never reopens (so no connection can be accepted
after closure); a connection accepted earlier can always complete its
relay, in any state; and nothing but a connection's own completion ever
lowers the live-connection count. -/
theorem c7_accept_ordering :
    (∀ s s' : PState, Step Label.accept s s' → s.listenerOpen = true) ∧
    (∀ (l : Label) (s s' : PState), Step l s s' →
      s.listenerOpen = false → s'.listenerOpen = false) ∧
    (∀ s : PState, 0 < s.conns →
      Step Label.finishConn s
        { s with conns := s.conns - 1, wgCount := s.wgCount - 1 }) ∧
    (∀ (l : Label) (s s' : PState), Step l s s' → s'.conns < s.conns →
      l = Label.finishConn) := by
  refine ⟨?_, ?_, fun s h => Step.finishConn s h, ?_⟩
  · intro s s' h
    cases h with
    | accept s hOpen hLoop => exact hOpen
  · intro l s s' h hcl
    cases h with
    | accept s hOpen hLoop =>
        rw [hOpen] at hcl
        exact absurd hcl (by simp)
    | finishConn s h1 => exact hcl
    | sigterm s => simp [sigtermStep, hcl]
    | acceptExit s h1 => exact hcl
    | mainExit s h1 h2 => exact hcl
  · intro l s s' h hlt
    cases h with
    | accept s hOpen hLoop =>
        have h2 : s.conns + 1 < s.conns := hlt
        omega
    | finishConn s h1 => rfl
    | sigterm s =>
        exfalso
        have h2 : (sigtermStep s).conns = s.conns := by
          by_cases h1 : s.listenerOpen = true <;> simp [sigtermStep, h1]
        omega
    | acceptExit s h1 =>
        have h2 : s.conns < s.conns := hlt
        omega
    | mainExit s h1 h2 =>
        have h3 : s.conns < s.conns := hlt
        omega

/-- Witness for C7: the initial state accepts (listener open), and a
concrete state with one live connection can complete it. -/
theorem c7_witness :
    initState.listenerOpen = true ∧
    Step Label.finishConn
      { listenerOpen := true, closeCount := 0, wgCount := 2, conns := 1,
        acceptLoopDone := false, mainDone := false }
      { listenerOpen := true, closeCount := 0, wgCount := 1, conns := 0,
        acceptLoopDone := false, mainDone := false } :=
  ⟨c7_accept_ordering.1 initState _ (Step.accept initState rfl rfl),
   c7_accept_ordering.2.2.1 _ (by decide)⟩

/-- Claim C1 (counterexample): with every startup input readable except
the private key, `main` still binds the raw listening socket (line 66)
before the key-material load in `buildConfig()` (line 70) fails: a
listening socket is opened even though key loading fails, contradicting
the claim that none ever is. -/
theorem c1_counterexample :
    (Config.mk false true true false true true false).keyOk = false ∧
    Event.bindRaw ∈ mainTrace (Config.mk false true true false true true false) 0 ∧
    Event.fatalExit ∈ mainTrace (Config.mk false true true false true true false) 0 := by
  decide

/-- Claim C1 (amended): with an unreadable private-key file the process
aborts before the TLS listener is constructed and before the accept
loop is launched — it never serves a connection and never reaches the
final wait — though the raw listening socket may already be bound. -/
theorem c1_amended (cfg : Config) (ppid : Nat) (h : cfg.keyOk = false) :
    Event.fatalExit ∈ mainTrace cfg ppid ∧
    Event.wrapTLS ∉ mainTrace cfg ppid ∧
    Event.launchAccept ∉ mainTrace cfg ppid ∧
    Event.waitReturn ∉ mainTrace cfg ppid := by
  obtain ⟨u, sl, b, k, c, ca, g⟩ := cfg
  have h' : k = false := h
  subst h'
  cases u <;> cases sl <;> cases b <;> cases c <;> cases ca <;> cases g <;>
    simp [mainTrace, Config.tlsMaterialOk]

/-- Witness for C1 (amended) at a concrete unreadable-key config. -/
theorem c1_witness :
    Event.fatalExit ∈ mainTrace (Config.mk false true true false true true false) 0 ∧
    Event.wrapTLS ∉ mainTrace (Config.mk false true true false true true false) 0 ∧
    Event.launchAccept ∉ mainTrace (Config.mk false true true false true true false) 0 ∧
    Event.waitReturn ∉ mainTrace (Config.mk false true true false true true false) 0 :=
  c1_amended (Config.mk false true true false true true false) 0 rfl

/-- Claim C3: on a successful startup, the SIGTERM to the parent pid
occurs exactly when the graceful-child flag is set, and only after the
TLS wrap of the listener and the launch of the accept loop. -/
theorem c3_graceful_signal (cfg : Config) (ppid : Nat)
    (h : cfg.startupOk = true) :
    (Event.killParent ppid ∈ mainTrace cfg ppid ↔ cfg.gracefulChild = true) ∧
    (cfg.gracefulChild = true →
      occursBefore Event.wrapTLS (Event.killParent ppid) (mainTrace cfg ppid) ∧
      occursBefore Event.launchAccept (Event.killParent ppid) (mainTrace cfg ppid)) := by
  obtain ⟨u, sl, b, k, c, ca, g⟩ := cfg
  cases u <;> cases sl <;> cases b <;> cases k <;> cases c <;> cases ca <;> cases g <;>
    simp_all [mainTrace, occursBefore, Config.startupOk, Config.tlsMaterialOk]

/-- Witness for C3 at a concrete graceful-child config with parent pid
1234. -/
theorem c3_witness :
    Event.killParent 1234 ∈
      mainTrace (Config.mk false true true true true true true) 1234 ∧
    occursBefore Event.launchAccept (Event.killParent 1234)
      (mainTrace (Config.mk false true true true true true true) 1234) :=
  ⟨(c3_graceful_signal (Config.mk false true true true true true true) 1234 rfl).1.mpr rfl,
   ((c3_graceful_signal (Config.mk false true true true true true true) 1234 rfl).2 rfl).2⟩

/-- Claim C6: the exit code is 0 exactly when `main` returns from the
final drain wait, and a startup failure (bad TLS material or unbindable
address) exits non-zero without ever launching the accept loop or
reaching the serving wait. -/
theorem c6_exit_codes (cfg : Config) (ppid : Nat) :
    (exitCode cfg ppid = 0 ↔ Event.waitReturn ∈ mainTrace cfg ppid) ∧
    ((cfg.tlsMaterialOk = false ∨ cfg.bindOk = false) →
      exitCode cfg ppid ≠ 0 ∧ Event.launchAccept ∉ mainTrace cfg ppid ∧
        Event.waitReturn ∉ mainTrace cfg ppid) := by
  obtain ⟨u, sl, b, k, c, ca, g⟩ := cfg
  cases u <;> cases sl <;> cases b <;> cases k <;> cases c <;> cases ca <;> cases g <;>
    simp_all [mainTrace, exitCode, Config.tlsMaterialOk]

/-- Witness for C6 at a concrete unbindable-address config. -/
theorem c6_witness :
    exitCode (Config.mk false true false true true true false) 0 ≠ 0 ∧
    Event.launchAccept ∉ mainTrace (Config.mk false true false true true true false) 0 ∧
    Event.waitReturn ∉ mainTrace (Config.mk false true false true true true false) 0 :=
  (c6_exit_codes (Config.mk false true false true true true false) 0).2 (Or.inr rfl)

/-- Claim C2: the server TLS configuration requires and verifies a
client certificate; after chain verification the handshake passes iff
some certificate in the chain carries an accepted organizational unit;
a chain whose organizational units are disjoint from the accepted set
fails the handshake and never reaches the relay stage. -/
theorem c2_ou_policy (accepted : List String) (chain : List Cert) (v : Bool) :
    (buildConfig accepted).clientAuth = ClientAuthType.requireAndVerifyClientCert ∧
    (handshakePasses (buildConfig accepted) true chain = true ↔
      ∃ c ∈ chain, ∃ ou ∈ c.ous, ou ∈ accepted) ∧
    (handshakePasses (buildConfig accepted) v chain = true → v = true) ∧
    ((∀ c ∈ chain, ∀ ou ∈ c.ous, ou ∉ accepted) →
      handshakePasses (buildConfig accepted) v chain = false ∧
      ∀ backendUp, connectionOutcome (buildConfig accepted) v chain backendUp =
        ConnOutcome.rejectedHandshake) := by
  refine ⟨rfl, ?_, ?_, ?_⟩
  · simp [handshakePasses, buildConfig, chainHasAcceptedOU, List.any_eq_true]
  · intro hp
    cases v with
    | false => simp [handshakePasses, buildConfig] at hp
    | true => rfl
  · intro hdisj
    have hfalse : chainHasAcceptedOU chain accepted = false := by
      simp only [chainHasAcceptedOU, List.any_eq_true, Bool.not_eq_true]
      rw [Bool.eq_false_iff]
      intro hx
      rw [List.any_eq_true] at hx
      obtain ⟨c, hc, hcx⟩ := hx
      rw [List.any_eq_true] at hcx
      obtain ⟨ou, hou, houx⟩ := hcx
      exact hdisj c hc ou hou (by simpa using houx)
    refine ⟨?_, fun backendUp => ?_⟩
    · simp [handshakePasses, buildConfig, hfalse]
    · simp [connectionOutcome, handshakePasses, buildConfig, hfalse]

/-- Witness for C2: a client whose only organizational unit is `guest`
is rejected under accepted set `{ops}` and never relayed. -/
theorem c2_witness :
    handshakePasses (buildConfig ["ops"]) true [Cert.mk ["guest"]] = false ∧
    connectionOutcome (buildConfig ["ops"]) true [Cert.mk ["guest"]] true =
      ConnOutcome.rejectedHandshake := by
  have h := (c2_ou_policy ["ops"] [Cert.mk ["guest"]] true).2.2.2 (by decide)
  exact ⟨h.1, h.2 true⟩

/-- Claim C8: the listener is opened with the kernel port-reuse option,
two such listeners on the identical address can be bound simultaneously
without either bind failing, and through a graceful reload there is no
stage with zero listeners bound. -/
theorem c8_port_reuse (addr : String) :
    (newReusablePortListener addr).reusePort = true ∧
    bindAllowed [] (newReusablePortListener addr) = true ∧
    bindAllowed [newReusablePortListener addr] (newReusablePortListener addr) = true ∧
    ∀ stage ∈ reloadWindow addr, stage ≠ [] := by
  refine ⟨rfl, rfl, ?_, ?_⟩
  · simp [bindAllowed, newReusablePortListener]
  · intro stage hst
    simp only [reloadWindow, List.mem_cons, List.mem_singleton] at hst
    rcases hst with h | h | h | h
    · subst h; simp
    · subst h; simp
    · subst h; simp
    · exact absurd h (List.not_mem_nil _)

/-- Witness for C8 at the spec's concrete listen address. -/
theorem c8_witness :
    bindAllowed [newReusablePortListener "127.0.0.1:9443"]
      (newReusablePortListener "127.0.0.1:9443") = true ∧
    [newReusablePortListener "127.0.0.1:9443"] ≠ ([] : List BindRequest) :=
  ⟨(c8_port_reuse "127.0.0.1:9443").2.2.1,
   (c8_port_reuse "127.0.0.1:9443").2.2.2 _ (List.mem_cons_self _ _)⟩

/-- Claim C10: whatever the destination (stderr or syslog), a
successfully initialized logger carries the bracketed width-5 process
id as its prefix, and every emitted line starts with it. -/
theorem c10_log_pid (u ok : Bool) (pid : Nat) (l : Logger)
    (h : initLogger u ok pid = some l) :
    l.pfx = "[" ++ padLeft (Nat.repr pid) 5 ++ "] " ∧
    ∀ msg, emitLine l msg = "[" ++ padLeft (Nat.repr pid) 5 ++ "] " ++ msg := by
  have hp : l.pfx = "[" ++ padLeft (Nat.repr pid) 5 ++ "] " := by
    cases u with
    | false =>
        simp [initLogger] at h
        subst h
        rfl
    | true =>
        cases ok with
        | false => simp [initLogger] at h
        | true =>
            simp [initLogger] at h
            subst h
            rfl
  refine ⟨hp, fun msg => ?_⟩
  simp [emitLine, hp]

/-- Witness for C10 with pid 42 on the stderr destination. -/
theorem c10_witness :
    emitLine (Logger.mk LogDest.stderr (logPfx 42)) "ready" =
      "[" ++ padLeft (Nat.repr 42) 5 ++ "] " ++ "ready" :=
  (c10_log_pid false true 42 (Logger.mk LogDest.stderr (logPfx 42)) rfl).2 "ready"

end Ghostunnel
